import Mathlib

/-!
Verification development for the SMM panel wallet/ledger logic.

The repository stores money state in three tables (`users.balance`,
`transactions`, `orders`) manipulated by Next.js API route handlers
(`/api/users`, `/api/orders`, `/api/transactions`, `/api/auth/me`) and by two
client components that orchestrate multi-step flows
(`ServiceBrowser.handleOrderSubmit` places an order,
`UserManagement.handleRefund` refunds one).

This file is a shallow embedding of those handlers and flows.  JavaScript
numbers are modelled as `Rat` (monetary values) and `Nat`/`Int`
(identifiers, quantities, timestamps); request bodies are modelled as typed
records with `Option` fields, where `none` plays the role of a missing
(`undefined`/`null`) JSON field.  JavaScript truthiness tests such as
`!userId` are modelled exactly (`0` and the empty string are falsy).  The
`parseInt`/`parseFloat`/`isNaN` guards of the handlers are satisfied by
construction in the typed model, so requests whose fields parse are the
modelled domain; `NaN` propagation paths are outside the rational model.
-/

/-- A JSON scalar value as emitted by the API responses. -/
inductive JVal where
  | jnum (v : Rat)
  | jstr (s : String)
  | jnull
deriving DecidableEq, Repr

/-- A row of the `users` table (schema in the migration file). -/
structure User where
  id : Nat
  email : String
  password : String
  name : String
  role : String
  status : String
  balance : Rat
  apiKey : Option String
  createdAt : Nat
  updatedAt : Nat
deriving DecidableEq, Repr

/-- A row of the `transactions` table (the ledger entries). -/
structure Txn where
  id : Nat
  userId : Nat
  type : String
  amount : Rat
  balanceBefore : Rat
  balanceAfter : Rat
  description : String
  orderId : Option Nat
  createdAt : Nat
deriving DecidableEq, Repr

/-- A row of the `orders` table. -/
structure Order where
  id : Nat
  userId : Nat
  serviceId : Nat
  link : String
  quantity : Int
  charge : Rat
  status : String
  providerOrderId : Option String
  startCount : Option Int
  remains : Option Int
  createdAt : Nat
  updatedAt : Nat
deriving DecidableEq, Repr

/-- A row of the `services` table (the fields the order flow reads). -/
structure Service where
  id : Nat
  name : String
  category : String
  rate : Rat
  minOrder : Int
  maxOrder : Int
  status : String
deriving DecidableEq, Repr

/-- The persistent store: the three money-bearing tables plus the service
catalog, autoincrement counters and a logical clock used for the
`createdAt`/`updatedAt` timestamps. -/
structure DB where
  users : List User
  services : List Service
  orders : List Order
  transactions : List Txn
  nextUserId : Nat
  nextOrderId : Nat
  nextTxnId : Nat
  now : Nat
deriving DecidableEq, Repr

/-- Response of an API handler: a payload with an HTTP status, or an error
with the error `code` string the handler returns and its HTTP status. -/
inductive ApiResp (α : Type) where
  | ok (payload : α) (status : Nat)
  | err (code : String) (status : Nat)
deriving DecidableEq, Repr

/-- JavaScript truthiness of an optional numeric id: `!x` holds for a
missing field and for `0`. -/
def intFalsy : Option Nat → Bool
  | none => true
  | some v => v == 0

/-- JavaScript truthiness of an optional string: `!s` holds for a missing
field and for the empty string. -/
def strFalsy : Option String → Bool
  | none => true
  | some s => s == ""

/-- `VALID_STATUSES` from `src/app/api/orders/route.ts`. -/
def VALID_STATUSES : List String :=
  ["PENDING", "PROCESSING", "COMPLETED", "CANCELLED", "PARTIAL", "REFUNDED"]

/-- `VALID_TRANSACTION_TYPES` from the transactions route. -/
def VALID_TRANSACTION_TYPES : List String :=
  ["DEPOSIT", "ORDER", "REFUND", "ADMIN_ADJUSTMENT"]

/-- The effective page size of every list endpoint:
`Math.min(parseInt(searchParams.get('limit') ?? '10'), 100)`. -/
def effLimit (requested : Option Int) : Int :=
  min (requested.getD 10) 100

/-- Descending order on a `Nat` key, used to model
`ORDER BY createdAt DESC`. -/
def keyDescRel (key : α → Nat) : α → α → Prop :=
  fun a b => key b ≤ key a

instance (key : α → Nat) : DecidableRel (keyDescRel key) :=
  fun a b => Nat.decLe (key b) (key a)

instance (key : α → Nat) : IsTotal α (keyDescRel key) :=
  ⟨fun a b => Nat.le_total (key b) (key a)⟩

instance (key : α → Nat) : IsTrans α (keyDescRel key) :=
  ⟨fun _ _ _ h1 h2 => Nat.le_trans h2 h1⟩

/-- Model of the SQL `ORDER BY key DESC` clause. -/
def sortDescBy (key : α → Nat) (l : List α) : List α :=
  l.insertionSort (keyDescRel key)

/-- Structural model of the JavaScript string `trim` method: drop
whitespace from both ends. -/
def jsTrim (s : String) : String :=
  String.mk
    (((s.toList.dropWhile Char.isWhitespace).reverse.dropWhile
      Char.isWhitespace).reverse)

/-- Structural model of the JavaScript `toUpperCase` method on the ASCII
enum strings the routes use. -/
def jsToUpper (s : String) : String :=
  String.mk (s.toList.map Char.toUpper)

/-- Structural model of the JavaScript `toLowerCase` method. -/
def jsToLower (s : String) : String :=
  String.mk (s.toList.map Char.toLower)

/-- Model of the SQLite `LIMIT lim OFFSET off` clause applied to a sorted
result: skip `off` rows (a negative offset skips none), then return at
most `lim` rows - except that SQLite treats a NEGATIVE limit as
unbounded, returning every remaining row. -/
def pageOf (lim off : Int) (l : List α) : List α :=
  if lim < 0 then l.drop off.toNat
  else (l.drop off.toNat).take lim.toNat

/-- Current balance of an account as the repository exposes it: the stored
`users.balance` column (read by `/api/auth/me` and `/api/users`). -/
def getBalance (db : DB) (uid : Nat) : Rat :=
  match db.users.find? (fun u => u.id == uid) with
  | some u => u.balance
  | none => 0

/-- Sum of the signed `amount` over all ledger entries of one account. -/
def entriesSum (db : DB) (uid : Nat) : Rat :=
  (db.transactions.filter (fun t => t.userId == uid)).foldr
    (fun t acc => t.amount + acc) 0

/-- Request body of `POST /api/transactions`. -/
structure TxnPostReq where
  userId : Option Nat
  type : Option String
  amount : Option Rat
  balanceBefore : Option Rat
  balanceAfter : Option Rat
  description : Option String
  orderId : Option Nat
deriving DecidableEq, Repr

/-- `POST /api/transactions` (route.ts lines 495 to 604): field-presence
checks, type-enum check, the `amount === 0` check, then an unconditional
insert.  The handler never reads nor writes `users.balance` and never
compares `amount` against the current balance. -/
def transactionsPOST (db : DB) (r : TxnPostReq) : ApiResp Txn × DB :=
  if intFalsy r.userId then (.err "MISSING_USER_ID" 400, db)
  else if strFalsy r.type then (.err "MISSING_TYPE" 400, db)
  else if r.amount.isNone then (.err "MISSING_AMOUNT" 400, db)
  else if r.balanceBefore.isNone then (.err "MISSING_BALANCE_BEFORE" 400, db)
  else if r.balanceAfter.isNone then (.err "MISSING_BALANCE_AFTER" 400, db)
  else if strFalsy r.description then (.err "MISSING_DESCRIPTION" 400, db)
  else if !(VALID_TRANSACTION_TYPES.contains (r.type.getD "")) then
    (.err "INVALID_TYPE" 400, db)
  else if r.amount == some 0 then (.err "INVALID_AMOUNT" 400, db)
  else
    let t : Txn :=
      { id := db.nextTxnId
        userId := r.userId.getD 0
        type := jsTrim (r.type.getD "")
        amount := r.amount.getD 0
        balanceBefore := r.balanceBefore.getD 0
        balanceAfter := r.balanceAfter.getD 0
        description := jsTrim (r.description.getD "")
        orderId := r.orderId
        createdAt := db.now }
    (.ok t 201,
      { db with transactions := t :: db.transactions
                nextTxnId := db.nextTxnId + 1
                now := db.now + 1 })

/-- `GET /api/transactions` in list mode (route.ts lines 432 to 485):
optional `userId`, `type` and `orderId` filters, `ORDER BY createdAt DESC`,
then `LIMIT min(requested, 100) OFFSET offset`. -/
def transactionsGETlist (db : DB) (userId : Option Nat) (type : Option String)
    (orderId : Option Nat) (lim off : Option Int) : ApiResp (List Txn) :=
  match type with
  | some t =>
    if !(VALID_TRANSACTION_TYPES.contains t) then .err "INVALID_TYPE" 400
    else
      .ok (pageOf (effLimit lim) (off.getD 0)
        (sortDescBy Txn.createdAt (db.transactions.filter (fun e =>
          (match userId with | some u => e.userId == u | none => true) &&
          e.type == t &&
          (match orderId with | some o => e.orderId == some o | none => true)))))
        200
  | none =>
    .ok (pageOf (effLimit lim) (off.getD 0)
      (sortDescBy Txn.createdAt (db.transactions.filter (fun e =>
        (match userId with | some u => e.userId == u | none => true) &&
        (match orderId with | some o => e.orderId == some o | none => true)))))
      200

/-- One character class of the email regex: `[^\s@]` (no whitespace, no at
sign). -/
def emailChar (c : Char) : Bool :=
  !c.isWhitespace && c != '@'

/-- Nonempty run of `emailChar`, i.e. the regex fragment `[^\s@]+`. -/
def emailRun (s : List Char) : Bool :=
  !s.isEmpty && s.all emailChar

/-- `isValidEmail` from the users route: the anchored test
`^[^\s@]+@[^\s@]+\.[^\s@]+$`.  Since every class excludes the at sign, a
match splits the string at its unique at sign; the tail must be clean and
must contain a dot that is neither its first nor its last character. -/
def isValidEmail (email : String) : Bool :=
  let cs := email.toList
  match cs.findIdx? (fun c => c == '@') with
  | none => false
  | some i =>
    emailRun (cs.take i) &&
    emailRun (cs.drop (i + 1)) &&
    ((cs.drop (i + 2)).dropLast.contains '.')

/-- Stand-in for the external `bcrypt.hash(password, 10)` call (the spec
lists password hashing as externally delegated); no claim depends on its
value, only on the fact that some string is stored. -/
def bcryptHash (password : String) : String :=
  "bcrypt-10-" ++ password

/-- The JSON object a `users` row serializes to (every column, in schema
order), as returned by drizzle `select()` before any sanitization. -/
def userRow (u : User) : List (String × JVal) :=
  [("id", .jnum u.id),
   ("email", .jstr u.email),
   ("password", .jstr u.password),
   ("name", .jstr u.name),
   ("role", .jstr u.role),
   ("status", .jstr u.status),
   ("balance", .jnum u.balance),
   ("apiKey", match u.apiKey with | some k => .jstr k | none => .jnull),
   ("createdAt", .jnum u.createdAt),
   ("updatedAt", .jnum u.updatedAt)]

/-- `excludePassword` from the users route: the rest-destructuring
`const (password, ...userWithoutPassword) = user` drops exactly the
`password` key. -/
def excludePassword (row : List (String × JVal)) : List (String × JVal) :=
  row.filter (fun f => f.1 != "password")

/-- The explicit column selection of `GET /api/auth/me`: id, email, name,
role, balance, status, apiKey, createdAt - and no password. -/
def authMeRow (u : User) : List (String × JVal) :=
  [("id", .jnum u.id),
   ("email", .jstr u.email),
   ("name", .jstr u.name),
   ("role", .jstr u.role),
   ("balance", .jnum u.balance),
   ("status", .jstr u.status),
   ("apiKey", match u.apiKey with | some k => .jstr k | none => .jnull),
   ("createdAt", .jnum u.createdAt)]

/-- True when the pattern list is a prefix of the other list. -/
def listPrefixEq : List Char → List Char → Bool
  | [], _ => true
  | _ :: _, [] => false
  | a :: as, b :: bs => a == b && listPrefixEq as bs

/-- True when the pattern occurs as a contiguous run inside the list. -/
def hasSub (pat : List Char) : List Char → Bool
  | [] => pat.isEmpty
  | c :: rest => listPrefixEq pat (c :: rest) || hasSub pat rest

/-- Substring test modelling the SQL `LIKE '%pat%'` filters and the
JavaScript `String.includes` calls. -/
def strIncludes (hay pat : String) : Bool :=
  hasSub pat.toList hay.toList

/-- `GET /api/users` in single mode (users route lines 24 to 47): fetch by
id, sanitize with `excludePassword`. -/
def usersGETsingle (db : DB) (id : Nat) : ApiResp (List (String × JVal)) :=
  match db.users.find? (fun u => u.id == id) with
  | none => .err "USER_NOT_FOUND" 404
  | some u => .ok (excludePassword (userRow u)) 200

/-- `GET /api/users` in list mode (users route lines 49 to 104): search on
name or email, role and status filters, `ORDER BY createdAt DESC`, the
`min(limit, 100)` page cap, and `excludePassword` mapped over the rows. -/
def usersGETlist (db : DB) (search role status : Option String)
    (lim off : Option Int) : ApiResp (List (List (String × JVal))) :=
  if role.isSome && !(["USER", "ADMIN"].contains (jsToUpper (role.getD ""))) then
    .err "INVALID_ROLE" 400
  else if status.isSome &&
      !(["ACTIVE", "SUSPENDED", "BANNED"].contains (jsToUpper (status.getD ""))) then
    .err "INVALID_STATUS" 400
  else
    .ok ((pageOf (effLimit lim) (off.getD 0)
      (sortDescBy User.createdAt (db.users.filter (fun u =>
        (match search with
         | some s => strIncludes u.name s || strIncludes u.email s
         | none => true) &&
        (match role with | some ro => u.role == (jsToUpper ro) | none => true) &&
        (match status with | some st => u.status == (jsToUpper st) | none => true)))))
      |>.map (fun u => excludePassword (userRow u))) 200

/-- Request body of `POST /api/users`. -/
structure UserPostReq where
  email : Option String
  password : Option String
  name : Option String
  role : Option String
  status : Option String
  balance : Option Rat
deriving DecidableEq, Repr

/-- `POST /api/users` (users route lines 114 to 222): required-field
truthiness checks, email format, password length, optional role, status
and non-negative balance checks, email uniqueness, bcrypt hash, insert,
sanitized response. -/
def usersPOSTrun (db : DB) (r : UserPostReq) :
    ApiResp (List (String × JVal)) × DB :=
  if strFalsy r.email then (.err "MISSING_EMAIL" 400, db)
  else if strFalsy r.password then (.err "MISSING_PASSWORD" 400, db)
  else if strFalsy r.name then (.err "MISSING_NAME" 400, db)
  else if !isValidEmail (jsTrim (r.email.getD "")) then
    (.err "INVALID_EMAIL_FORMAT" 400, db)
  else if (r.password.getD "").length < 6 then (.err "PASSWORD_TOO_SHORT" 400, db)
  else if !strFalsy r.role &&
      !(["USER", "ADMIN"].contains (jsToUpper (r.role.getD ""))) then
    (.err "INVALID_ROLE" 400, db)
  else if !strFalsy r.status &&
      !(["ACTIVE", "SUSPENDED", "BANNED"].contains (jsToUpper (r.status.getD ""))) then
    (.err "INVALID_STATUS" 400, db)
  else if (match r.balance with | some b => decide (b < 0) | none => false) then
    (.err "INVALID_BALANCE" 400, db)
  else if (db.users.find? (fun u =>
      u.email == (jsTrim (jsToLower (r.email.getD ""))))).isSome then
    (.err "EMAIL_EXISTS" 400, db)
  else
    let u : User :=
      { id := db.nextUserId
        email := jsTrim (jsToLower (r.email.getD ""))
        password := bcryptHash (r.password.getD "")
        name := jsTrim (r.name.getD "")
        role := if strFalsy r.role then "USER" else jsToUpper (r.role.getD "")
        status := if strFalsy r.status then "ACTIVE" else jsToUpper (r.status.getD "")
        balance := r.balance.getD 0
        apiKey := none
        createdAt := db.now
        updatedAt := db.now }
    (.ok (excludePassword (userRow u)) 201,
      { db with users := db.users ++ [u]
                nextUserId := db.nextUserId + 1
                now := db.now + 1 })

/-- Request body of `PUT /api/users`.  `apiKey` distinguishes an absent
field (`none`) from an explicit `null` (`some none`). -/
structure UserPutReq where
  name : Option String
  email : Option String
  password : Option String
  role : Option String
  status : Option String
  balance : Option Rat
  apiKey : Option (Option String)
deriving DecidableEq, Repr

/-- `PUT /api/users` (users route lines 224 to 359).  Every provided field
is validated then written onto the stored row; in particular a provided
non-negative `balance` is stored directly, with no ledger entry written
anywhere in the handler. -/
def usersPUTrun (db : DB) (id : Nat) (r : UserPutReq) :
    ApiResp (List (String × JVal)) × DB :=
  match db.users.find? (fun u => u.id == id) with
  | none => (.err "USER_NOT_FOUND" 404, db)
  | some u0 =>
    if (match r.name with | some n => jsTrim n == "" | none => false) then
      (.err "INVALID_NAME" 400, db)
    else if (match r.email with | some e => !isValidEmail (jsTrim e) | none => false) then
      (.err "INVALID_EMAIL_FORMAT" 400, db)
    else if ((match r.email with
             | some e =>
               (match db.users.find? (fun u => u.email == jsTrim (jsToLower e)) with
                | some other => other.id != id
                | none => false)
             | none => false : Bool)) then
      (.err "EMAIL_EXISTS" 400, db)
    else if (match r.password with | some p => decide (p.length < 6) | none => false) then
      (.err "PASSWORD_TOO_SHORT" 400, db)
    else if (match r.role with
             | some ro => !(["USER", "ADMIN"].contains (jsToUpper ro))
             | none => false) then
      (.err "INVALID_ROLE" 400, db)
    else if (match r.status with
             | some st => !(["ACTIVE", "SUSPENDED", "BANNED"].contains (jsToUpper st))
             | none => false) then
      (.err "INVALID_STATUS" 400, db)
    else if (match r.balance with | some b => decide (b < 0) | none => false) then
      (.err "INVALID_BALANCE" 400, db)
    else
      let u1 : User :=
        { u0 with
          name := match r.name with | some n => jsTrim n | none => u0.name
          email := match r.email with | some e => jsTrim (jsToLower e) | none => u0.email
          password := match r.password with
                      | some p => bcryptHash p
                      | none => u0.password
          role := match r.role with | some ro => (jsToUpper ro) | none => u0.role
          status := match r.status with | some st => (jsToUpper st) | none => u0.status
          balance := match r.balance with | some b => b | none => u0.balance
          apiKey := match r.apiKey with
                    | some (some k) => if k == "" then none else some (jsTrim k)
                    | some none => none
                    | none => u0.apiKey
          updatedAt := db.now }
      (.ok (excludePassword (userRow u1)) 200,
        { db with users := db.users.map (fun u => if u.id == id then u1 else u)
                  now := db.now + 1 })

/-- `DELETE /api/users` (users route lines 361 to 407): delete by id,
return the sanitized deleted row. -/
def usersDELETErun (db : DB) (id : Nat) :
    ApiResp (List (String × JVal)) × DB :=
  match db.users.find? (fun u => u.id == id) with
  | none => (.err "USER_NOT_FOUND" 404, db)
  | some u =>
    (.ok (excludePassword (userRow u)) 200,
      { db with users := db.users.filter (fun v => v.id != id)
                now := db.now + 1 })

/-- `GET /api/auth/me`: resolve the session, then return the explicit
column selection of the user row (which never includes `password`). -/
def authMe (db : DB) (session : Option Nat) : ApiResp (List (String × JVal)) :=
  match session with
  | none => .err "NOT_AUTHENTICATED" 401
  | some sid =>
    match db.users.find? (fun u => u.id == sid) with
    | none => .err "USER_NOT_FOUND" 404
    | some u => .ok (authMeRow u) 200

/-- Request body of `POST /api/orders`. -/
structure OrderPostReq where
  userId : Option Nat
  serviceId : Option Nat
  link : Option String
  quantity : Option Int
  charge : Option Rat
  startCount : Option Int
  remains : Option Int
  status : Option String
  providerOrderId : Option String
deriving DecidableEq, Repr

/-- `POST /api/orders` (route.ts lines 103 to 253).  The handler takes the
`charge` from the request body; it performs no balance read, no balance
write, no ledger insert, and its only quantity constraint is
`quantity > 0` (the `INVALID_QUANTITY` branch) - it never consults
`service.minOrder` or `service.maxOrder`. -/
def ordersPOSTrun (db : DB) (r : OrderPostReq) : ApiResp Order × DB :=
  if intFalsy r.userId then (.err "MISSING_USER_ID" 400, db)
  else if intFalsy r.serviceId then (.err "MISSING_SERVICE_ID" 400, db)
  else if ((match r.link with | some l => jsTrim l == "" | none => true : Bool)) then
    (.err "MISSING_LINK" 400, db)
  else if r.quantity.isNone then (.err "MISSING_QUANTITY" 400, db)
  else if r.charge.isNone then (.err "MISSING_CHARGE" 400, db)
  else if r.quantity.getD 0 ≤ 0 then (.err "INVALID_QUANTITY" 400, db)
  else if r.charge.getD 0 ≤ 0 then (.err "INVALID_CHARGE" 400, db)
  else if !(VALID_STATUSES.contains
      (if strFalsy r.status then "PENDING" else jsToUpper (r.status.getD ""))) then
    (.err "INVALID_STATUS" 400, db)
  else if (db.users.find? (fun u => u.id == r.userId.getD 0)).isNone then
    (.err "USER_NOT_FOUND" 400, db)
  else if (db.services.find? (fun s => s.id == r.serviceId.getD 0)).isNone then
    (.err "SERVICE_NOT_FOUND" 400, db)
  else
    let o : Order :=
      { id := db.nextOrderId
        userId := r.userId.getD 0
        serviceId := r.serviceId.getD 0
        link := jsTrim (r.link.getD "")
        quantity := r.quantity.getD 0
        charge := r.charge.getD 0
        status := if strFalsy r.status then "PENDING" else jsToUpper (r.status.getD "")
        providerOrderId := (r.providerOrderId.map jsTrim)
        startCount := r.startCount
        remains := r.remains
        createdAt := db.now
        updatedAt := db.now }
    (.ok o 201,
      { db with orders := o :: db.orders
                nextOrderId := db.nextOrderId + 1
                now := db.now + 1 })

/-- `GET /api/orders` in list mode (route.ts lines 37 to 93): `userId`,
`serviceId`, `status` and link-search filters, `ORDER BY createdAt DESC`,
page cap `min(limit, 100)`. -/
def ordersGETlist (db : DB) (userId serviceId : Option Nat)
    (status search : Option String) (lim off : Option Int) :
    ApiResp (List Order) :=
  if status.isSome && !(VALID_STATUSES.contains (jsToUpper (status.getD ""))) then
    .err "INVALID_STATUS" 400
  else
    .ok (pageOf (effLimit lim) (off.getD 0)
      (sortDescBy Order.createdAt (db.orders.filter (fun o =>
        (match userId with | some u => o.userId == u | none => true) &&
        (match serviceId with | some s => o.serviceId == s | none => true) &&
        (match status with | some st => o.status == (jsToUpper st) | none => true) &&
        (match search with | some se => strIncludes o.link se | none => true)))))
      200

/-- Request body of `PUT /api/orders`. -/
structure OrderPutReq where
  status : Option String
  startCount : Option Int
  remains : Option Int
  providerOrderId : Option String
deriving DecidableEq, Repr

/-- `PUT /api/orders` (route.ts lines 255 to 350).  Any status in
`VALID_STATUSES` is accepted for any order, whatever its current status:
the handler has no state-machine guard, no `AlreadyRefunded` branch and no
ledger interaction. -/
def ordersPUTrun (db : DB) (id : Nat) (r : OrderPutReq) : ApiResp Order × DB :=
  match db.orders.find? (fun o => o.id == id) with
  | none => (.err "ORDER_NOT_FOUND" 404, db)
  | some o0 =>
    if ((match r.status with
        | some st => !(VALID_STATUSES.contains (jsToUpper st))
        | none => false : Bool)) then
      (.err "INVALID_STATUS" 400, db)
    else
      let o1 : Order :=
        { o0 with
          status := (match r.status with | some st => (jsToUpper st) | none => o0.status)
          startCount := (match r.startCount with
                         | some v => some v
                         | none => o0.startCount)
          remains := (match r.remains with | some v => some v | none => o0.remains)
          providerOrderId := (match r.providerOrderId with
                              | some p => some (jsTrim p)
                              | none => o0.providerOrderId)
          updatedAt := db.now }
      (.ok o1 200,
        { db with orders := db.orders.map (fun o => if o.id == id then o1 else o)
                  now := db.now + 1 })

/-- The user object the order form holds as a prop: a snapshot of the
session user fetched earlier, not an atomic read of the stored balance. -/
structure ClientUser where
  id : Nat
  balance : Rat
deriving DecidableEq, Repr

/-- The service object the order form holds after fetching the catalog. -/
structure ClientService where
  id : Nat
  name : String
  rate : Rat
  minOrder : Int
  maxOrder : Int
deriving DecidableEq, Repr

/-- The order object the admin order table holds when the refund button is
clicked. -/
structure ClientOrder where
  id : Nat
  userId : Nat
  charge : Rat
deriving DecidableEq, Repr

/-- Outcome of the client order flow. -/
inductive PlaceOrderResult where
  | invalidQuantity
  | insufficientBalance
  | orderFailed (code : String)
  | placed (o : Order)
deriving DecidableEq, Repr

/-- The charge computation of the order form
(`ServiceBrowser.handleOrderSubmit`):
`const charge = (quantity / 1000) * selectedService.rate` - raw
multiplication with no rounding step. -/
def chargeOf (quantity : Int) (rate : Rat) : Rat :=
  ((quantity : Rat) / 1000) * rate

/-- Modelled from the spec: the rounding policy of section 4.3 step 2,
"round half-up to 2 decimals".  The source has no rounding code at all
(the spec itself flags this as an open bug it fixes), so this definition
follows the words of the spec and is compared against `chargeOf`. -/
def specRoundHalfUp2 (x : Rat) : Rat :=
  ((x * 100 + 1 / 2).floor : Rat) / 100

/-- `ServiceBrowser.handleOrderSubmit` (the order placement flow):
1. reject a quantity outside `[minOrder, maxOrder]` of the held service;
2. compute the charge;
3. reject when the charge exceeds the snapshot balance;
4. `POST /api/orders` (aborting, with no rollback needed, if it errors);
5. `PUT /api/users` overwriting the balance with snapshot minus charge
   (the response is not checked);
6. `POST /api/transactions` recording the ORDER entry (response unchecked).
Steps 4 to 6 are three independent HTTP calls with no transaction. -/
def handleOrderSubmit (db : DB) (user : ClientUser) (svc : ClientService)
    (link : String) (quantity : Int) : PlaceOrderResult × DB :=
  if quantity < svc.minOrder || svc.maxOrder < quantity then
    (.invalidQuantity, db)
  else
    let charge := chargeOf quantity svc.rate
    if user.balance < charge then (.insufficientBalance, db)
    else
      match ordersPOSTrun db
        { userId := some user.id
          serviceId := some svc.id
          link := some link
          quantity := some quantity
          charge := some charge
          startCount := none
          remains := none
          status := some "PENDING"
          providerOrderId := none } with
      | (.err code _, db1) => (.orderFailed code, db1)
      | (.ok o _, db1) =>
        let newBalance := user.balance - charge
        let step2 := usersPUTrun db1 user.id
          { name := none, email := none, password := none, role := none,
            status := none, balance := some newBalance, apiKey := none }
        let step3 := transactionsPOST step2.2
          { userId := some user.id
            type := some "ORDER"
            amount := some (-charge)
            balanceBefore := some user.balance
            balanceAfter := some newBalance
            description := some ("Order #" ++ toString o.id ++ " - " ++ svc.name)
            orderId := some o.id }
        (.placed o, step3.2)

/-- `UserManagement.handleRefund` (the admin refund flow):
1. `GET /api/users` for the current balance;
2. `PUT /api/users` overwriting the balance with balance plus charge;
3. `POST /api/transactions` recording a REFUND entry for the order;
4. `PUT /api/orders` setting the status to REFUNDED.
No step checks the current order status, so the flow runs identically on
an already refunded order; the missing-user path (a 404 body would make
`userData.balance` undefined and propagate `NaN`) is outside the rational
model and left as the unchanged store. -/
def handleRefund (db : DB) (order : ClientOrder) : DB :=
  match db.users.find? (fun u => u.id == order.userId) with
  | none => db
  | some u =>
    let newBalance := u.balance + order.charge
    let step1 := usersPUTrun db order.userId
      { name := none, email := none, password := none, role := none,
        status := none, balance := some newBalance, apiKey := none }
    let step2 := transactionsPOST step1.2
      { userId := some order.userId
        type := some "REFUND"
        amount := some order.charge
        balanceBefore := some u.balance
        balanceAfter := some newBalance
        description := some ("Refund for order #" ++ toString order.id)
        orderId := some order.id }
    let step3 := ordersPUTrun step2.2 order.id
      { status := some "REFUNDED", startCount := none, remains := none,
        providerOrderId := none }
    step3.2

/-- A seeded user row with a given id and balance. -/
def mkUser (id : Nat) (balance : Rat) : User :=
  { id := id
    email := "user" ++ toString id ++ "@example.com"
    password := "bcrypt-10-secret1"
    name := "Test User"
    role := "USER"
    status := "ACTIVE"
    balance := balance
    apiKey := none
    createdAt := 0
    updatedAt := 0 }

/-- A seeded service row: rate 2.50 per 1000, minOrder 100, maxOrder
100000 (the scenario of spec section 8). -/
def svcIG : Service :=
  { id := 1
    name := "Instagram Followers"
    category := "Instagram"
    rate := 5 / 2
    minOrder := 100
    maxOrder := 100000
    status := "ACTIVE" }

/-- The same service as the order form holds it after fetching. -/
def svcClient : ClientService :=
  { id := 1
    name := "Instagram Followers"
    rate := 5 / 2
    minOrder := 100
    maxOrder := 100000 }

/-- A store with one account and a given balance, empty ledger and no
orders. -/
def oneUserDb (balance : Rat) : DB :=
  { users := [mkUser 1 balance]
    services := [svcIG]
    orders := []
    transactions := []
    nextUserId := 2
    nextOrderId := 1
    nextTxnId := 1
    now := 10 }

/-- Balance-only `PUT /api/users` body setting the balance to 50. -/
def putBalance50 : UserPutReq :=
  { name := none, email := none, password := none, role := none,
    status := none, balance := some 50, apiKey := none }

/-- A `POST /api/transactions` body debiting 100 (an overdraft for any
balance below 100). -/
def overdraftReq : TxnPostReq :=
  { userId := some 1
    type := some "ORDER"
    amount := some (-100)
    balanceBefore := some 2
    balanceAfter := some (-98)
    description := some "debit"
    orderId := none }

/-- An otherwise valid `POST /api/transactions` body whose amount is the
number 0. -/
def zeroAmountReq : TxnPostReq :=
  { userId := some 1
    type := some "DEPOSIT"
    amount := some 0
    balanceBefore := some 2
    balanceAfter := some 2
    description := some "nothing"
    orderId := none }

/-- A store with one account at balance 0 and one PENDING order already
charged 2.50, as the refund scenario of spec section 8 starts. -/
def refundDb : DB :=
  { users := [mkUser 1 0]
    services := [svcIG]
    orders := [{ id := 1
                 userId := 1
                 serviceId := 1
                 link := "https://example.com/profile"
                 quantity := 1000
                 charge := 5 / 2
                 status := "PENDING"
                 providerOrderId := none
                 startCount := none
                 remains := none
                 createdAt := 0
                 updatedAt := 0 }]
    transactions := []
    nextUserId := 2
    nextOrderId := 2
    nextTxnId := 1
    now := 10 }

/-- The order row above as held by the admin table when Refund is
clicked. -/
def refundOrderClient : ClientOrder :=
  { id := 1, userId := 1, charge := 5 / 2 }

/-- The order flow run against a stored balance of 2.00 with a stale
client snapshot showing 100.00. -/
def staleRun : PlaceOrderResult × DB :=
  handleOrderSubmit (oneUserDb 2) { id := 1, balance := 100 } svcClient
    "https://example.com/profile" 1000

/-- The spec section 8 scenario run: stored balance 100.00, snapshot in
agreement, quantity 1000 at rate 2.50 per 1000. -/
def scenarioRun : PlaceOrderResult × DB :=
  handleOrderSubmit (oneUserDb 100) { id := 1, balance := 100 } svcClient
    "https://example.com/profile" 1000

/-- A seeded refund entry for order 1 at time 1. -/
def txnRefundA : Txn :=
  { id := 1, userId := 1, type := "REFUND", amount := 5 / 2,
    balanceBefore := 0, balanceAfter := 5 / 2,
    description := "Refund for order #1", orderId := some 1, createdAt := 1 }

/-- A seeded order-charge entry for order 2 at time 5. -/
def txnOrderB : Txn :=
  { id := 2, userId := 1, type := "ORDER", amount := -(5 / 2),
    balanceBefore := 5 / 2, balanceAfter := 0,
    description := "Order #2", orderId := some 2, createdAt := 5 }

/-- A second seeded refund entry for order 1 at time 3. -/
def txnRefundC : Txn :=
  { id := 3, userId := 1, type := "REFUND", amount := 5 / 2,
    balanceBefore := 0, balanceAfter := 5 / 2,
    description := "Refund for order #1", orderId := some 1, createdAt := 3 }

/-- A store whose ledger holds three entries with distinct timestamps,
types and related orders, for exercising the transactions list query. -/
def ledgerDb : DB :=
  { users := [mkUser 1 10]
    services := [svcIG]
    orders := []
    transactions := [txnRefundA, txnOrderB, txnRefundC]
    nextUserId := 2
    nextOrderId := 3
    nextTxnId := 4
    now := 10 }

/-- The sanitized response row for the seeded user with balance 2. -/
def sanitizedRow1 : List (String × JVal) :=
  excludePassword (userRow (mkUser 1 2))

/-- The HTTP status of a response, whichever kind it is. -/
def respStatus : ApiResp α → Nat
  | .ok _ s => s
  | .err _ s => s

/-- The transactions list page the REFUND and order-1 filters select from
`ledgerDb`: both refund entries, newest first. -/
def refundPage : List Txn := [txnRefundC, txnRefundA]

/-- The transactions list page a limit of 2 selects from `ledgerDb`: the
two newest entries. -/
def ledgerPage2 : List Txn := [txnOrderB, txnRefundC]

/-- 101 seeded ledger entries - one more than the hard cap - with
strictly decreasing timestamps. -/
def bigTxns : List Txn :=
  (List.range 101).map (fun i =>
    { id := i + 1, userId := 1, type := "DEPOSIT", amount := 1,
      balanceBefore := 0, balanceAfter := 1,
      description := "seed", orderId := none, createdAt := 200 - i })

/-- A store holding the 101 seeded ledger entries. -/
def bigLedgerDb : DB :=
  { users := [mkUser 1 10]
    services := [svcIG]
    orders := []
    transactions := bigTxns
    nextUserId := 2
    nextOrderId := 1
    nextTxnId := 102
    now := 300 }


theorem sorted_sortDescBy (key : α → Nat) (l : List α) :
    (sortDescBy key l).Pairwise (fun a b => key b ≤ key a) :=
  List.sorted_insertionSort (keyDescRel key) l

theorem mem_sortDescBy {key : α → Nat} {a : α} {l : List α} :
    a ∈ sortDescBy key l ↔ a ∈ l :=
  (List.perm_insertionSort (keyDescRel key) l).mem_iff

theorem pageOf_sublist (lim off : Int) (l : List α) :
    (pageOf lim off l).Sublist l := by
  unfold pageOf
  split
  · exact List.drop_sublist _ _
  · exact (List.take_sublist _ _).trans (List.drop_sublist _ _)

theorem mem_pageOf {lim off : Int} {l : List α} {a : α}
    (h : a ∈ pageOf lim off l) : a ∈ l :=
  (pageOf_sublist lim off l).subset h

theorem pairwise_pageOf {R : α → α → Prop} {lim off : Int} {l : List α}
    (h : l.Pairwise R) : (pageOf lim off l).Pairwise R :=
  List.Pairwise.sublist (pageOf_sublist lim off l) h

theorem length_pageOf {lim : Int} (off : Int) (l : List α) (h : 0 ≤ lim) :
    (pageOf lim off l).length ≤ lim.toNat := by
  unfold pageOf
  rw [if_neg (by omega)]
  simp

theorem not_password_of_mem_excludePassword {row : List (String × JVal)}
    {f : String × JVal} (h : f ∈ excludePassword row) : f.1 ≠ "password" := by
  have := List.of_mem_filter h
  simpa using this

theorem not_password_of_mem_authMeRow {u : User} {f : String × JVal}
    (h : f ∈ authMeRow u) : f.1 ≠ "password" := by
  simp only [authMeRow, List.mem_cons, List.not_mem_nil, or_false] at h
  rcases h with rfl | rfl | rfl | rfl | rfl | rfl | rfl | rfl <;> simp

theorem guard_skip {α : Type} {c : Prop} [Decidable c] {code : String}
    {s : Nat} {db : DB} {rest : ApiResp α × DB} {row : α} {st : Nat}
    {db2 : DB}
    (h : (if c then ((ApiResp.err code s : ApiResp α), db) else rest)
      = (.ok row st, db2)) :
    rest = (.ok row st, db2) := by
  split at h
  · exact ApiResp.noConfusion (congrArg Prod.fst h)
  · exact h

/-- C5: in the order placement flow, a quantity outside
`[service.minOrder, service.maxOrder]` is rejected up front (the
invalid-quantity branch) with the store untouched, so an order is created
only when `minOrder ≤ quantity ≤ maxOrder`. -/
theorem c5_quantity_range_validated_in_order_flow
    (db : DB) (user : ClientUser) (svc : ClientService) (link : String)
    (q : Int) :
    ((q < svc.minOrder ∨ svc.maxOrder < q) →
      handleOrderSubmit db user svc link q = (.invalidQuantity, db)) ∧
    (∀ o db2, handleOrderSubmit db user svc link q = (.placed o, db2) →
      svc.minOrder ≤ q ∧ q ≤ svc.maxOrder) := by
  constructor
  · intro h
    have hc : (decide (q < svc.minOrder) || decide (svc.maxOrder < q)) = true := by
      rcases h with h | h <;> simp [h]
    simp [handleOrderSubmit, hc]
  · intro o db2 h
    by_cases hc : (decide (q < svc.minOrder) || decide (svc.maxOrder < q)) = true
    · rw [handleOrderSubmit, if_pos hc] at h
      simp at h
    · simp only [Bool.or_eq_true, decide_eq_true_eq, not_or] at hc
      omega

set_option maxHeartbeats 2000000 in
/-- C10: a transactions POST whose amount is the number 0 never inserts a
ledger entry and leaves the store unchanged; when the request passes the
preceding field checks the rejection carries the INVALID_AMOUNT code with
status 400; consequently every entry the endpoint creates from a numeric
amount has a nonzero amount. -/
theorem c10_zero_amount_rejected_no_entry :
    (∀ db r, r.amount = some 0 → (transactionsPOST db r).2 = db) ∧
    (∀ db r, intFalsy r.userId = false → strFalsy r.type = false →
      r.balanceBefore.isSome = true → r.balanceAfter.isSome = true →
      strFalsy r.description = false →
      VALID_TRANSACTION_TYPES.contains (r.type.getD "") = true →
      r.amount = some 0 →
      (transactionsPOST db r).1 = .err "INVALID_AMOUNT" 400) ∧
    (∀ db r t st db2, transactionsPOST db r = (.ok t st, db2) →
      t.amount ≠ 0) := by
  refine ⟨?_, ?_, ?_⟩
  · intro db r ha
    unfold transactionsPOST
    split_ifs <;> simp_all
  · intro db r h1 h2 h3 h4 h5 h6 ha
    unfold transactionsPOST
    split_ifs <;> simp_all
  · intro db r t st db2 h
    unfold transactionsPOST at h
    split_ifs at h with g1 g2 g3 g4 g5 g6 g7 g8
    all_goals try exact ApiResp.noConfusion (congrArg Prod.fst h)
    have hfst := congrArg Prod.fst h
    injection hfst with ht hst
    subst ht
    show r.amount.getD 0 ≠ 0
    cases hr : r.amount with
    | none => exact absurd (by rw [hr]; rfl) g3
    | some a =>
      simp only [Option.getD_some]
      intro h0
      exact g8 (by rw [hr, h0]; decide)

/-- C7, amended: every list endpoint (transactions, orders, users)
computes the effective page size `min(requested, 100)`, default 10 when
no limit is requested, and whenever that effective limit is nonnegative
the endpoint returns at most that many records.  For a NEGATIVE
requested limit the computed limit is negative and is forwarded to
SQLite, whose negative LIMIT is unbounded, so the cap is bypassed - see
the C7 counterexample. -/
theorem c7_pagination_default_and_cap :
    effLimit none = 10 ∧
    (∀ r : Int, effLimit (some r) = min r 100) ∧
    (∀ db uf tf odf lim off l st, 0 ≤ effLimit lim →
      transactionsGETlist db uf tf odf lim off = .ok l st →
      l.length ≤ (effLimit lim).toNat) ∧
    (∀ db uf sf stf sef lim off l st, 0 ≤ effLimit lim →
      ordersGETlist db uf sf stf sef lim off = .ok l st →
      l.length ≤ (effLimit lim).toNat) ∧
    (∀ db se ro stt lim off rows st, 0 ≤ effLimit lim →
      usersGETlist db se ro stt lim off = .ok rows st →
      rows.length ≤ (effLimit lim).toNat) := by
  refine ⟨rfl, fun r => rfl, ?_, ?_, ?_⟩
  · intro db uf tf odf lim off l st h0 h
    cases tf with
    | none =>
      simp only [transactionsGETlist, ApiResp.ok.injEq] at h
      obtain ⟨h1, -⟩ := h
      exact h1 ▸ length_pageOf _ _ h0
    | some t0 =>
      simp only [transactionsGETlist] at h
      split_ifs at h with hv
      simp only [ApiResp.ok.injEq] at h
      obtain ⟨h1, -⟩ := h
      exact h1 ▸ length_pageOf _ _ h0
  · intro db uf sf stf sef lim off l st h0 h
    unfold ordersGETlist at h
    split_ifs at h with hv
    simp only [ApiResp.ok.injEq] at h
    obtain ⟨h1, -⟩ := h
    exact h1 ▸ length_pageOf _ _ h0
  · intro db se ro stt lim off rows st h0 h
    unfold usersGETlist at h
    split_ifs at h with hv1 hv2
    simp only [ApiResp.ok.injEq] at h
    obtain ⟨h1, -⟩ := h
    subst h1
    rw [List.length_map]
    exact length_pageOf _ _ h0

/-- C7, counterexample to the claim as stated: the claim quantifies over
every list request, but a request with limit -1 makes the computed limit
`min(-1, 100) = -1`, which SQLite treats as unbounded: on a ledger of
101 entries all 101 rows come back, exceeding both `min(requested, 100)`
and the hard cap of 100. -/
theorem c7_negative_limit_returns_all :
    effLimit (some (-1)) = -1 ∧
    transactionsGETlist bigLedgerDb none none none (some (-1)) none
      = ApiResp.ok bigTxns 200 ∧
    bigTxns.length = 101 ∧
    ¬ (bigTxns.length : Int) ≤ 100 := by
  refine ⟨by decide, by decide, by decide, by decide⟩

/-- C8: every transactions list result is sorted descending by
`createdAt`, and when a type filter or an orderId filter is supplied,
every returned entry matches it. -/
theorem c8_transactions_list_sorted_and_filtered
    (db : DB) (uf : Option Nat) (tf : Option String) (odf : Option Nat)
    (lim off : Option Int) (l : List Txn) (st : Nat)
    (h : transactionsGETlist db uf tf odf lim off = .ok l st) :
    l.Pairwise (fun a b => b.createdAt ≤ a.createdAt) ∧
    (∀ t, tf = some t → ∀ e ∈ l, e.type = t) ∧
    (∀ o, odf = some o → ∀ e ∈ l, e.orderId = some o) := by
  cases tf with
  | none =>
    simp only [transactionsGETlist, ApiResp.ok.injEq] at h
    obtain ⟨h1, -⟩ := h
    subst h1
    refine ⟨pairwise_pageOf (sorted_sortDescBy _ _), ?_, ?_⟩
    · intro t ht
      exact absurd ht (by simp)
    · intro o ho e he
      subst ho
      have hp := (List.mem_filter.mp (mem_sortDescBy.mp (mem_pageOf he))).2
      simp only [Bool.and_eq_true, beq_iff_eq] at hp
      exact hp.2
  | some t0 =>
    simp only [transactionsGETlist] at h
    split_ifs at h with hv
    simp only [ApiResp.ok.injEq] at h
    obtain ⟨h1, -⟩ := h
    subst h1
    refine ⟨pairwise_pageOf (sorted_sortDescBy _ _), ?_, ?_⟩
    · intro t ht e he
      have hp := (List.mem_filter.mp (mem_sortDescBy.mp (mem_pageOf he))).2
      simp only [Bool.and_eq_true, beq_iff_eq] at hp
      cases ht
      exact hp.1.2
    · intro o ho e he
      subst ho
      have hp := (List.mem_filter.mp (mem_sortDescBy.mp (mem_pageOf he))).2
      simp only [Bool.and_eq_true, beq_iff_eq] at hp
      exact hp.2

attribute [local semireducible] Rat.add Rat.mul Rat.inv Rat.sub

/-- C9: no response of the users API (single GET, list GET, POST, PUT,
DELETE) or of the authenticated-user endpoint contains the stored
password field: every emitted user object lacks a "password" key. -/
theorem c9_no_password_in_any_user_response :
    (∀ db id row st, usersGETsingle db id = .ok row st →
      ∀ f ∈ row, f.1 ≠ "password") ∧
    (∀ db se ro stt lim off rows st,
      usersGETlist db se ro stt lim off = .ok rows st →
      ∀ row ∈ rows, ∀ f ∈ row, f.1 ≠ "password") ∧
    (∀ db r row st db2, usersPOSTrun db r = (.ok row st, db2) →
      ∀ f ∈ row, f.1 ≠ "password") ∧
    (∀ db id r row st db2, usersPUTrun db id r = (.ok row st, db2) →
      ∀ f ∈ row, f.1 ≠ "password") ∧
    (∀ db id row st db2, usersDELETErun db id = (.ok row st, db2) →
      ∀ f ∈ row, f.1 ≠ "password") ∧
    (∀ db sess row st, authMe db sess = .ok row st →
      ∀ f ∈ row, f.1 ≠ "password") := by
  refine ⟨?_, ?_, ?_, ?_, ?_, ?_⟩
  · intro db id row st h f hf
    unfold usersGETsingle at h
    split at h
    · exact ApiResp.noConfusion h
    · simp only [ApiResp.ok.injEq] at h
      obtain ⟨h1, -⟩ := h
      subst h1
      exact not_password_of_mem_excludePassword hf
  · intro db se ro stt lim off rows st h row hrow f hf
    unfold usersGETlist at h
    split_ifs at h with hv1 hv2
    simp only [ApiResp.ok.injEq] at h
    obtain ⟨h1, -⟩ := h
    subst h1
    obtain ⟨u, -, rfl⟩ := List.mem_map.mp hrow
    exact not_password_of_mem_excludePassword hf
  · intro db r row st db2 h f hf
    unfold usersPOSTrun at h
    replace h := guard_skip (guard_skip (guard_skip (guard_skip (guard_skip
      (guard_skip (guard_skip (guard_skip (guard_skip h))))))))
    have hfst := congrArg Prod.fst h
    injection hfst with h1 h2
    subst h1
    exact not_password_of_mem_excludePassword hf
  · intro db id r row st db2 h f hf
    unfold usersPUTrun at h
    cases hfind : db.users.find? (fun u => u.id == id) with
    | none =>
      rw [hfind] at h
      exact ApiResp.noConfusion (congrArg Prod.fst h)
    | some u0 =>
      rw [hfind] at h
      replace h := guard_skip (guard_skip (guard_skip (guard_skip
        (guard_skip (guard_skip (guard_skip h))))))
      have hfst := congrArg Prod.fst h
      injection hfst with h1 h2
      subst h1
      exact not_password_of_mem_excludePassword hf
  · intro db id row st db2 h f hf
    unfold usersDELETErun at h
    cases hfind : db.users.find? (fun u => u.id == id) with
    | none =>
      rw [hfind] at h
      exact ApiResp.noConfusion (congrArg Prod.fst h)
    | some u =>
      rw [hfind] at h
      have hfst := congrArg Prod.fst h
      injection hfst with h1 h2
      subst h1
      exact not_password_of_mem_excludePassword hf
  · intro db sess row st h f hf
    cases sess with
    | none => exact ApiResp.noConfusion h
    | some sid =>
      unfold authMe at h
      simp only [] at h
      cases hfind : db.users.find? (fun u => u.id == sid) with
      | none =>
        rw [hfind] at h
        exact ApiResp.noConfusion h
      | some u =>
        rw [hfind] at h
        simp only [ApiResp.ok.injEq] at h
        obtain ⟨h1, -⟩ := h
        subst h1
        exact not_password_of_mem_authMeRow hf

/-- C1: the claim states that `getBalance` always equals the sum of the
ledger amounts and that no operation writes a stored balance except by
applying a ledger entry.  The code violates it: a single
`PUT /api/users` with a `balance` field (the admin balance dialog sends
exactly this) overwrites the stored balance directly, succeeds with
status 200, writes no ledger entry, and leaves `getBalance` at 50 while
the entry sum for the account is 0. -/
theorem c1_users_put_writes_balance_without_ledger_entry :
    getBalance (oneUserDb 0) 1 = 0 ∧
    entriesSum (oneUserDb 0) 1 = 0 ∧
    respStatus (usersPUTrun (oneUserDb 0) 1 putBalance50).1 = 200 ∧
    getBalance (usersPUTrun (oneUserDb 0) 1 putBalance50).2 1 = 50 ∧
    (usersPUTrun (oneUserDb 0) 1 putBalance50).2.transactions = [] ∧
    entriesSum (usersPUTrun (oneUserDb 0) 1 putBalance50).2 1 = 0 ∧
    getBalance (usersPUTrun (oneUserDb 0) 1 putBalance50).2 1 ≠
      entriesSum (usersPUTrun (oneUserDb 0) 1 putBalance50).2 1 := by
  refine ⟨by decide, by decide, by decide, by decide, by decide, by decide, by decide⟩

/-- C2: the claim states that the transactions POST fails with
InsufficientFunds and has no side effect when the amount would drive the
balance negative.  The code has no such check: with a stored balance of
2, a POST debiting 100 is accepted with status 201, the entry is
persisted, and the stored balance is not read or changed at all. -/
theorem c2_overdraft_entry_accepted_without_funds_check :
    getBalance (oneUserDb 2) 1 + (-100) < 0 ∧
    respStatus (transactionsPOST (oneUserDb 2) overdraftReq).1 = 201 ∧
    (transactionsPOST (oneUserDb 2) overdraftReq).2.transactions.map Txn.amount
      = [-100] ∧
    getBalance (transactionsPOST (oneUserDb 2) overdraftReq).2 1 = 2 := by
  refine ⟨by decide, by decide, by decide, by decide⟩

/-- C3: the claim states that a second refund of the same order fails
AlreadyRefunded, adds no second Refund entry and leaves the balance
unchanged.  The code has no such guard anywhere (the admin refund flow
checks nothing and the orders PUT accepts any status): running the refund
flow twice on order 1 credits its charge of 2.50 twice, taking the
balance from 0 to 5, and records two REFUND entries for the order, even
though the order status is already REFUNDED after the first run. -/
theorem c3_second_refund_credits_again :
    getBalance refundDb 1 = 0 ∧
    getBalance (handleRefund refundDb refundOrderClient) 1 = 5 / 2 ∧
    ((handleRefund refundDb refundOrderClient).orders.map Order.status)
      = ["REFUNDED"] ∧
    getBalance
      (handleRefund (handleRefund refundDb refundOrderClient)
        refundOrderClient) 1 = 5 ∧
    ((handleRefund (handleRefund refundDb refundOrderClient)
        refundOrderClient).transactions.filter
      (fun t => t.type == "REFUND" && t.orderId == some 1)).length = 2 := by
  refine ⟨by decide, by decide, by decide, by decide, by decide⟩

/-- C4: the claim states that when the ledger charge of placeOrder fails
for lack of funds, the caller receives InsufficientFunds and no order row
persists.  The code cannot provide this: the server order POST performs
no balance check at all and the client flow checks only its stale
snapshot before creating the order, with no rollback afterwards.  With a
stored balance of 2.00 and a snapshot showing 100.00, the flow reports
success, the order row persists, and the balance is blindly overwritten
to 97.50 although the account held only 2.00 against a charge of 2.50. -/
theorem c4_order_persists_without_funds :
    getBalance (oneUserDb 2) 1 < chargeOf 1000 svcClient.rate ∧
    (staleRun.2.orders.map (fun o => (o.id, o.status, o.charge)))
      = [(1, "PENDING", 5 / 2)] ∧
    (match staleRun.1 with | .placed _ => true | _ => false) = true ∧
    getBalance staleRun.2 1 = 195 / 2 := by
  refine ⟨by decide, by decide, by decide, by decide⟩

/-- C6: the claim states that the recorded charge is
`quantity / 1000 * rate` rounded half-up to 2 decimals.  The scenario
part holds (rate 2.50, quantity 1000: charge 2.50, balance 100.00 to
97.50, one ORDER entry with before 100 and after 97.50) because that
product is already exact, but the code never rounds: at quantity 333 the
recorded charge is the raw product 0.8325, not the half-up rounding
0.83 required by the claim. -/
theorem c6_charge_raw_multiplication_not_rounded :
    chargeOf 1000 (5 / 2) = 5 / 2 ∧
    getBalance scenarioRun.2 1 = 195 / 2 ∧
    (scenarioRun.2.transactions.map
      (fun t => (t.type, t.amount, t.balanceBefore, t.balanceAfter)))
      = [("ORDER", -(5 / 2), 100, 195 / 2)] ∧
    (scenarioRun.2.orders.map Order.charge) = [5 / 2] ∧
    chargeOf 333 (5 / 2) = 333 / 400 ∧
    specRoundHalfUp2 (chargeOf 333 (5 / 2)) = 83 / 100 ∧
    chargeOf 333 (5 / 2) ≠ specRoundHalfUp2 (chargeOf 333 (5 / 2)) := by
  refine ⟨by decide, by decide, by decide, by decide, by decide, by decide, by decide⟩

/-- Witness for C5 at quantity 5 against a service with minOrder 100. -/
theorem c5_quantity_range_witness :
    handleOrderSubmit (oneUserDb 2) ⟨1, 100⟩ svcClient
      "https://example.com/profile" 5 = (.invalidQuantity, oneUserDb 2) :=
  (c5_quantity_range_validated_in_order_flow (oneUserDb 2) ⟨1, 100⟩ svcClient
    "https://example.com/profile" 5).1 (Or.inl (by decide))

/-- Witness for C7: with a requested limit of 2, the seeded ledger query
returns exactly the two newest entries, within the bound. -/
theorem c7_pagination_witness :
    transactionsGETlist ledgerDb none none none (some 2) none
      = ApiResp.ok ledgerPage2 200 ∧
    ledgerPage2.length ≤ (effLimit (some 2)).toNat :=
  ⟨by decide,
    c7_pagination_default_and_cap.2.2.1 ledgerDb none none none (some 2)
      none ledgerPage2 200 (by decide) (by decide)⟩

/-- Witness for C8: the REFUND and order-1 filtered query on the seeded
ledger returns the two refund entries newest first, sorted and matching
both filters. -/
theorem c8_transactions_list_witness :
    transactionsGETlist ledgerDb none (some "REFUND") (some 1) none none
      = ApiResp.ok refundPage 200 ∧
    (refundPage.Pairwise (fun a b => b.createdAt ≤ a.createdAt) ∧
     (∀ t, (some "REFUND" : Option String) = some t →
       ∀ e ∈ refundPage, e.type = t) ∧
     (∀ o, (some 1 : Option Nat) = some o →
       ∀ e ∈ refundPage, e.orderId = some o)) :=
  ⟨by decide,
    c8_transactions_list_sorted_and_filtered ledgerDb none (some "REFUND")
      (some 1) none none refundPage 200 (by decide)⟩

/-- Witness for C10: a concrete zero-amount POST is rejected with
INVALID_AMOUNT and the store is unchanged. -/
theorem c10_zero_amount_witness :
    (transactionsPOST ledgerDb zeroAmountReq).1 = .err "INVALID_AMOUNT" 400 ∧
    (transactionsPOST ledgerDb zeroAmountReq).2 = ledgerDb :=
  ⟨c10_zero_amount_rejected_no_entry.2.1 ledgerDb zeroAmountReq (by decide)
      (by decide) (by decide) (by decide) (by decide) (by decide) rfl,
    c10_zero_amount_rejected_no_entry.1 ledgerDb zeroAmountReq rfl⟩

/-- Witness for C9: the single-user GET on the seeded store returns the
sanitized row, and no field of it is named password. -/
theorem c9_no_password_witness :
    usersGETsingle (oneUserDb 2) 1 = ApiResp.ok sanitizedRow1 200 ∧
    (∀ f ∈ sanitizedRow1, f.1 ≠ "password") :=
  ⟨by decide,
    c9_no_password_in_any_user_response.1 (oneUserDb 2) 1 sanitizedRow1 200
      (by decide)⟩
